import Mathlib

/-!
Verification development for the MultiTalk gradio demo's queue and
progress-capture subsystem (`gradio_demo/queue_manager.py`,
`gradio_demo/progress_capture.py`, `gradio_demo/demo_pipeline.py`).

The Python code is shallowly embedded: floats are modelled as exact
rationals (`ℚ`), wall-clock timestamps as integer seconds passed
explicitly, dictionaries as insertion-ordered association lists, and the
two regular expressions of `TqdmCapture` as explicit leftmost-greedy
backtracking matchers over `List Char`.
-/

namespace MultiTalk

/-! ## Python string primitives -/

/-- Python `\s` for the ASCII range: space, tab, newline, carriage return,
vertical tab, form feed. -/
def isSpaceChar (c : Char) : Bool :=
  c == ' ' || c == '\t' || c == '\n' || c == '\r' ||
  c == Char.ofNat 11 || c == Char.ofNat 12

/-- Numeric value of a digit run, as Python `int` reads it. -/
def natOfDigits (ds : List Char) : Nat :=
  ds.foldl (fun n c => 10 * n + (c.toNat - 48)) 0

/-- Python `str.strip()` (ASCII whitespace). -/
def pyStrip (s : String) : String :=
  String.mk (((s.toList.dropWhile isSpaceChar).reverse.dropWhile isSpaceChar).reverse)

/-- Python `str.rstrip('s')`: drop every trailing `'s'`. -/
def pyRstripS (s : String) : String :=
  String.mk ((s.toList.reverse.dropWhile (· == 's')).reverse)

/-- Python `str.lower()` (ASCII case folding). -/
def pyLower (s : String) : String :=
  String.mk (s.toList.map Char.toLower)

/-- Python `int(s)`: optional surrounding whitespace, optional sign, digits.
(Underscore separators are not modelled.) -/
def pyInt? (s : String) : Option Int :=
  match (pyStrip s).toList with
  | '-' :: rest =>
      if rest ≠ [] ∧ rest.all Char.isDigit then some (-(natOfDigits rest : Int)) else none
  | '+' :: rest =>
      if rest ≠ [] ∧ rest.all Char.isDigit then some (natOfDigits rest : Int) else none
  | cs =>
      if cs ≠ [] ∧ cs.all Char.isDigit then some (natOfDigits cs : Int) else none

/-- Magnitude part of Python `float(s)`: `123`, `123.`, `12.5` or `.5`.
(Exponent and inf/nan forms are not modelled; every input the code meets
here is a plain decimal.) -/
def pyFloatMag? (cs : List Char) : Option ℚ :=
  let intPart := cs.takeWhile Char.isDigit
  match cs.drop intPart.length with
  | [] => if intPart ≠ [] then some (natOfDigits intPart : ℚ) else none
  | '.' :: frac =>
      if frac.all Char.isDigit ∧ (intPart ≠ [] ∨ frac ≠ []) then
        some ((natOfDigits intPart : ℚ) + (natOfDigits frac : ℚ) / (10 : ℚ) ^ frac.length)
      else none
  | _ => none

/-- Python `float(s)` on the decimal forms used by the code. -/
def pyFloat? (s : String) : Option ℚ :=
  match (pyStrip s).toList with
  | '-' :: rest => (pyFloatMag? rest).map (fun q => -q)
  | '+' :: rest => pyFloatMag? rest
  | cs => pyFloatMag? cs

/-- Python `s.split(sep)` for a one-character separator, keeping empty
pieces (structural recursion over the characters). -/
def splitOnChar (sep : Char) : List Char → List (List Char)
  | [] => [[]]
  | c :: t =>
      match splitOnChar sep t with
      | [] => [[]]
      | cur :: rest => if c = sep then [] :: cur :: rest else (c :: cur) :: rest

/-- Python substring test `needle in hay`. -/
def subIn (needle : List Char) : List Char → Bool
  | [] => needle.isEmpty
  | c :: t => needle.isPrefixOf (c :: t) || subIn needle t

/-! ## Leftmost-greedy backtracking matcher

The two patterns of `TqdmCapture.__init__` are compiled by hand into
continuation-passing matchers.  Greedy pieces try the longest candidate
first and backtrack on continuation failure, matching Python `re`
semantics; `search` tries every start position from the left. -/

/-- Match one literal character, then continue. -/
def litThen {α : Type} (c : Char) (cs : List Char) (k : List Char → Option α) : Option α :=
  match cs with
  | [] => none
  | x :: t => if x = c then k t else none

/-- Match `\d+` (greedy); the following pattern element is never a digit,
so taking the maximal run is equivalent to full backtracking. -/
def digitsThen {α : Type} (cs : List Char) (k : Nat → List Char → Option α) : Option α :=
  let ds := cs.takeWhile Char.isDigit
  if ds.isEmpty then none else k (natOfDigits ds) (cs.drop ds.length)

/-- Backtracking worker for `class*`: try dropping `n` characters, then
`n-1`, … down to `0`. -/
def starThenAux {α : Type} (cs : List Char) (k : List Char → Option α) : Nat → Option α
  | 0 => k cs
  | n + 1 => k (cs.drop (n + 1)) <|> starThenAux cs k n

/-- Match `[class]*` greedily with backtracking, then continue. -/
def starClassThen {α : Type} (p : Char → Bool) (cs : List Char) (k : List Char → Option α) :
    Option α :=
  starThenAux cs k (cs.takeWhile p).length

/-- Backtracking worker for `([class]+)lit`: candidate group length `n+1`
down to `1`, requiring `lit` right after the group. -/
def plusUntilAux {α : Type} (cs : List Char) (lit : Char)
    (k : List Char → List Char → Option α) : Nat → Option α
  | 0 => none
  | n + 1 =>
      (match cs.drop (n + 1) with
       | x :: rest => if x = lit then k (cs.take (n + 1)) rest else none
       | [] => none) <|> plusUntilAux cs lit k n

/-- Match `([class]+)` greedily followed by the literal `lit`, with
backtracking into the group, then continue with group and remainder. -/
def plusUntil {α : Type} (p : Char → Bool) (lit : Char) (cs : List Char)
    (k : List Char → List Char → Option α) : Option α :=
  plusUntilAux cs lit k (cs.takeWhile p).length

/-- `re.search`: try a match at each start position, leftmost first. -/
def searchAux {α : Type} (m : List Char → Option α) : List Char → Option α
  | [] => m []
  | c :: t => m (c :: t) <|> searchAux m t

/-- The bar-glyph character class `[█▉▊▋▌▍▎▏ ]` of `tqdm_pattern`. -/
def isBarChar (c : Char) : Bool :=
  c == '█' || c == '▉' || c == '▊' || c == '▋' || c == '▌' ||
  c == '▍' || c == '▎' || c == '▏' || c == ' '

/-- The six capture groups of `tqdm_pattern`. -/
structure TqdmGroups where
  pct : Nat
  cur : Nat
  tot : Nat
  elapsed : String
  eta : String
  rate : String
deriving DecidableEq

/-- `tqdm_pattern` = `(\d+)%\|[█▉▊▋▌▍▎▏ ]*\|\s*(\d+)/(\d+)\s*\[([^\]]+)<([^\]]+),\s*([^\]]+)\]`
matched at the head of `cs`. -/
def tqdmMatchAt (cs : List Char) : Option TqdmGroups :=
  digitsThen cs fun pct cs1 =>
  litThen '%' cs1 fun cs2 =>
  litThen '|' cs2 fun cs3 =>
  starClassThen isBarChar cs3 fun cs4 =>
  litThen '|' cs4 fun cs5 =>
  starClassThen isSpaceChar cs5 fun cs6 =>
  digitsThen cs6 fun cur cs7 =>
  litThen '/' cs7 fun cs8 =>
  digitsThen cs8 fun tot cs9 =>
  starClassThen isSpaceChar cs9 fun cs10 =>
  litThen '[' cs10 fun cs11 =>
  plusUntil (fun c => c != ']') '<' cs11 fun elapsedG cs12 =>
  plusUntil (fun c => c != ']') ',' cs12 fun etaG cs13 =>
  starClassThen isSpaceChar cs13 fun cs14 =>
  plusUntil (fun c => c != ']') ']' cs14 fun rateG _ =>
  some { pct := pct, cur := cur, tot := tot,
         elapsed := String.mk elapsedG, eta := String.mk etaG, rate := String.mk rateG }

/-- `self.tqdm_pattern.search(line)`. -/
def tqdmSearch (cs : List Char) : Option TqdmGroups :=
  searchAux tqdmMatchAt cs

/-- `simple_progress_pattern` = `(\d+)%` matched at the head of `cs`. -/
def simpleMatchAt (cs : List Char) : Option Nat :=
  digitsThen cs fun pct cs1 =>
  litThen '%' cs1 fun _ =>
  some pct

/-- `self.simple_progress_pattern.search(line)`. -/
def simpleSearch (cs : List Char) : Option Nat :=
  searchAux simpleMatchAt cs

/-! ## `TqdmCapture` parsing (`progress_capture.py`) -/

/-- `ProgressInfo` dataclass. -/
structure ProgressInfo where
  percentage : ℚ := 0
  current_step : Nat := 0
  total_steps : Nat := 0
  rate : Option ℚ := none
  eta : Option String := none
  description : String := ""
  elapsed_time : ℚ := 0
deriving DecidableEq

/-- `TqdmCapture._parse_time`: `MM:SS`, `HH:MM:SS`, else
`float(time_str.rstrip('s'))`; any failure yields `0.0`. -/
def _parse_time (time_str : String) : ℚ :=
  if time_str.toList.contains ':' then
    match (splitOnChar ':' time_str.toList).map String.mk with
    | [a, b] =>
        match pyInt? a, pyInt? b with
        | some x, some y => (x : ℚ) * 60 + (y : ℚ)
        | _, _ => 0
    | [a, b, c] =>
        match pyInt? a, pyInt? b, pyInt? c with
        | some x, some y, some z => (x : ℚ) * 3600 + (y : ℚ) * 60 + (z : ℚ)
        | _, _, _ => 0
    | _ =>
        match pyFloat? (pyRstripS time_str) with
        | some q => q
        | none => 0
  else
    match pyFloat? (pyRstripS time_str) with
    | some q => q
    | none => 0

/-- `TqdmCapture.parse_tqdm_line`: strip, try the rich tqdm pattern, then
the bare-percentage pattern, else `None`.  On a rich match the `rate`
group is extracted by the pattern but not stored (as in the source). -/
def parse_tqdm_line (line : String) : Option ProgressInfo :=
  let l := pyStrip line
  if l = "" then none
  else
    match tqdmSearch l.toList with
    | some g =>
        some { percentage := (g.pct : ℚ), current_step := g.cur, total_steps := g.tot,
               eta := some g.eta, description := l, elapsed_time := _parse_time g.elapsed }
    | none =>
        match simpleSearch l.toList with
        | some pct => some { percentage := (pct : ℚ), description := l }
        | none => none

/-! ## `LogCapture` and stream routing (`progress_capture.py`) -/

/-- The timestamp-prefixed form `f"[{timestamp}] {line}"`. -/
def fmtLogLine (timestamp line : String) : String :=
  "[" ++ timestamp ++ "] " ++ line

/-- `LogCapture.add_log_line`: append the timestamped line, then pop the
oldest line if the buffer exceeds `max_lines`. -/
def add_log_line (max_lines : Nat) (log_lines : List String) (timestamp line : String) :
    List String :=
  let b := log_lines ++ [fmtLogLine timestamp line]
  if max_lines < b.length then b.drop 1 else b

/-- `_process_stdout`'s progress-indicator gate:
`any(indicator in line.lower() for indicator in ['%', 'it/s', 'step', 'epoch'])`. -/
def hasProgressIndicator (line : String) : Bool :=
  let l := (pyLower line).toList
  subIn "%".toList l || subIn "it/s".toList l || subIn "step".toList l ||
  subIn "epoch".toList l

/-- Observable buffers of one `TqdmCapture` plus one `LogCapture`
(the pair wired together by `ProgressStreamCapture`). -/
structure CaptureState where
  current_progress : ProgressInfo := {}
  captured_output : List String := []
  log_lines : List String := []
deriving DecidableEq

/-- One iteration of `ProgressStreamCapture._process_stdout`'s per-line
loop: strip; discard empty lines; route indicator-bearing lines to
`TqdmCapture.update_progress` (which only stores anything when
`parse_tqdm_line` succeeds) and the rest to `LogCapture.add_log_line`. -/
def process_stdout_line (st : CaptureState) (timestamp text : String) : CaptureState :=
  if pyStrip text = "" then st
  else if hasProgressIndicator (pyStrip text) then
    match parse_tqdm_line (pyStrip text) with
    | some pi =>
        { st with current_progress := pi,
                  captured_output := st.captured_output ++ [fmtLogLine timestamp (pyStrip text)] }
    | none => st
  else
    { st with log_lines := add_log_line 100 st.log_lines timestamp (pyStrip text) }

/-- `ProgressStreamCapture._process_stdout` on a whole text chunk:
`text.split('\n')`, each piece stripped and routed. -/
def _process_stdout (st : CaptureState) (timestamp text : String) : CaptureState :=
  ((splitOnChar '\n' text.toList).map String.mk).foldl
    (fun s l => process_stdout_line s timestamp l) st

/-! ## `QueueManager` (`queue_manager.py`)

Timestamps (`datetime.now()`) are passed in explicitly as integer
seconds; `uuid` job ids and the generated default session tag are passed
in as parameters.  The `jobs` dict is an insertion-ordered association
list with unique keys. -/

/-- `JobInfo` dataclass. -/
structure JobInfo where
  job_id : String
  user_session : String
  job_type : String
  status : String
  created_at : Int
  started_at : Option Int := none
  completed_at : Option Int := none
  progress : ℚ := 0
  current_step : String := ""
  estimated_duration : Option ℚ := none
  error_message : Option String := none
deriving DecidableEq

/-- Dict lookup (`d.get(k)` / `d[k]` guarded by `k in d`). -/
def lookupA {β : Type} : List (String × β) → String → Option β
  | [], _ => none
  | (k, v) :: t, key => if k = key then some v else lookupA t key

/-- Dict store `d[k] = v`: overwrite in place, else append (Python dicts
keep insertion order). -/
def insertA {β : Type} : List (String × β) → String → β → List (String × β)
  | [], key, v => [(key, v)]
  | (k, w) :: t, key, v => if k = key then (k, v) :: t else (k, w) :: insertA t key v

/-- Dict delete `del d[k]` (keys are unique by construction). -/
def eraseA {β : Type} : List (String × β) → String → List (String × β)
  | [], _ => []
  | (k, w) :: t, key => if k = key then t else (k, w) :: eraseA t key

/-- `list.remove(x)` guarded by `x in list`: drop the first occurrence. -/
def removeFirst : List String → String → List String
  | [], _ => []
  | x :: t, y => if x = y then t else x :: removeFirst t y

/-- `list.index(x)` as an option. -/
def idxOf : List String → String → Option Nat
  | [], _ => none
  | x :: t, y => if x = y then some 0 else (idxOf t y).map (· + 1)

/-- `QueueManager` state.  The default field values are the `__init__`
values, including the seeded running-average table. -/
structure QueueManager where
  jobs : List (String × JobInfo) := []
  queue_order : List String := []
  active_job : Option String := none
  job_history : List JobInfo := []
  avg_processing_times : List (String × ℚ) := [("single", 120), ("multi", 180)]
deriving DecidableEq

/-- A freshly constructed `QueueManager()`. -/
def QueueManager.init : QueueManager := {}

/-- Python truthiness of the `error_message` argument (`if error_message:`):
`None` and the empty string are falsy. -/
def truthyMsg : Option String → Bool
  | none => false
  | some s => s != ""

/-- `self.avg_processing_times.get(job_type, 150.0)`. -/
def avg_or_default (tbl : List (String × ℚ)) (job_type : String) : ℚ :=
  match lookupA tbl job_type with
  | some v => v
  | none => 150

/-- The `JobInfo(...)` record constructed by `add_job`. -/
def new_job (qm : QueueManager) (job_type user_session job_id : String) (now : Int) :
    JobInfo :=
  { job_id := job_id, user_session := user_session, job_type := job_type,
    status := "queued", created_at := now,
    estimated_duration := some (avg_or_default qm.avg_processing_times job_type) }

/-- `QueueManager.add_job` (the generated `uuid` id and the defaulted
session tag are supplied by the caller of the model). -/
def add_job (qm : QueueManager) (job_type user_session job_id : String) (now : Int) :
    QueueManager :=
  { qm with jobs := insertA qm.jobs job_id (new_job qm job_type user_session job_id now),
            queue_order := qm.queue_order ++ [job_id] }

/-- `QueueManager.start_job`. -/
def start_job (qm : QueueManager) (job_id : String) (now : Int) : QueueManager × Bool :=
  match lookupA qm.jobs job_id with
  | none => (qm, false)
  | some j =>
      let j2 : JobInfo := { j with status := "processing", started_at := some now }
      ({ qm with
           jobs := insertA qm.jobs job_id j2,
           active_job := some job_id,
           queue_order := removeFirst qm.queue_order job_id }, true)

/-- `QueueManager.update_job_progress`. -/
def update_job_progress (qm : QueueManager) (job_id : String) (progress : ℚ)
    (current_step : String) : QueueManager :=
  match lookupA qm.jobs job_id with
  | none => qm
  | some j =>
      let j2 : JobInfo := { j with progress := progress, current_step := current_step }
      { qm with jobs := insertA qm.jobs job_id j2 }

/-- `QueueManager._update_avg_processing_time`: exponential moving average
with fixed smoothing `0.7 / 0.3`, only for kinds already in the table. -/
def _update_avg_processing_time (tbl : List (String × ℚ)) (job_type : String)
    (duration : ℚ) : List (String × ℚ) :=
  match lookupA tbl job_type with
  | none => tbl
  | some current_avg =>
      insertA tbl job_type (7 / 10 * current_avg + 3 / 10 * duration)

/-- History push in `complete_job`: append, then pop the oldest entry when
the history exceeds 100 records. -/
def push_history (h : List JobInfo) (j : JobInfo) : List JobInfo :=
  let h2 := h ++ [j]
  if 100 < h2.length then h2.drop 1 else h2

/-- The mutations `complete_job` applies to the record before retiring it:
terminal status, `completed_at := now`, progress forced to `1.0` only on
success, `error_message` overwritten only when the argument is truthy. -/
def retire_record (j : JobInfo) (success : Bool) (error_message : Option String)
    (now : Int) : JobInfo :=
  { j with status := if success then "completed" else "failed",
           completed_at := some now,
           progress := if success then 1 else j.progress,
           error_message := if truthyMsg error_message then error_message
                            else j.error_message }

/-- The running-average table after `complete_job`
(`if success and job.started_at: ...`; `completed_at - started_at` is the
observed duration). -/
def completed_avgs (tbl : List (String × ℚ)) (j : JobInfo) (success : Bool)
    (now : Int) : List (String × ℚ) :=
  match success, j.started_at with
  | true, some st => _update_avg_processing_time tbl j.job_type (((now - st : Int) : ℚ))
  | _, _ => tbl

/-- `QueueManager.complete_job`: record mutated via `retire_record` and
appended to the bounded history, running average updated via
`completed_avgs`, record deleted from the live store, active-job marker
cleared when it pointed here.  `queue_order` is not touched. -/
def complete_job (qm : QueueManager) (job_id : String) (success : Bool)
    (error_message : Option String) (now : Int) : QueueManager :=
  match lookupA qm.jobs job_id with
  | none => qm
  | some j =>
      { qm with
          jobs := eraseA qm.jobs job_id,
          job_history := push_history qm.job_history (retire_record j success error_message now),
          active_job := if qm.active_job = some job_id then none else qm.active_job,
          avg_processing_times := completed_avgs qm.avg_processing_times j success now }

/-- `job.estimated_duration or 150.0` (Python `or`: `None` and `0.0` are
falsy). -/
def est_duration_or_default (j : JobInfo) : ℚ :=
  match j.estimated_duration with
  | none => 150
  | some d => if d = 0 then 150 else d

/-- `QueueManager._estimate_remaining_time`. -/
def _estimate_remaining_time (job : JobInfo) (now : Int) : ℚ :=
  match job.started_at with
  | none => est_duration_or_default job
  | some st =>
      if job.progress ≤ 0 then est_duration_or_default job
      else
        let elapsed : ℚ := ((now - st : Int) : ℚ)
        if 1 ≤ job.progress then 0
        else max 0 (elapsed / job.progress - elapsed)

/-- The queued-jobs view
`[self.jobs[job_id] for job_id in self.queue_order if job_id in self.jobs]`. -/
def live_queue_jobs (qm : QueueManager) : List JobInfo :=
  qm.queue_order.filterMap (fun id => lookupA qm.jobs id)

/-- `self.jobs.get(self.active_job) if self.active_job else None`. -/
def active_job_info (qm : QueueManager) : Option JobInfo :=
  match qm.active_job with
  | none => none
  | some id => lookupA qm.jobs id

/-- The wait-accumulation loop of `get_queue_status`
(`for i, job in enumerate(queue_jobs): ...`). -/
def wait_loop (active : Option JobInfo) (now : Int) : Nat → List JobInfo → ℚ
  | _, [] => 0
  | i, j :: rest =>
      (match i, active with
       | 0, some a => _estimate_remaining_time a now
       | _, _ => est_duration_or_default j) + wait_loop active now (i + 1) rest

/-- The dictionary returned by `get_queue_status`. -/
structure QueueStatusView where
  queue_length : Nat
  active_job : Option JobInfo
  estimated_wait_time : ℚ
  queue_jobs : List JobInfo
  avg_processing_times : List (String × ℚ)
deriving DecidableEq

/-- `QueueManager.get_queue_status`. -/
def get_queue_status (qm : QueueManager) (now : Int) : QueueStatusView :=
  let queue_jobs := live_queue_jobs qm
  let active := active_job_info qm
  { queue_length := queue_jobs.length,
    active_job := active,
    estimated_wait_time := wait_loop active now 0 queue_jobs,
    queue_jobs := queue_jobs.take 5,
    avg_processing_times := qm.avg_processing_times }

/-- `QueueManager.get_job_position`: 1-indexed position in `queue_order`,
`None` when absent. -/
def get_job_position (qm : QueueManager) (job_id : String) : Option Nat :=
  (idxOf qm.queue_order job_id).map (· + 1)

/-! ## `GradioMultiTalkPipeline.generate` (`demo_pipeline.py`)

Queue-visible control flow of the job-execution path: start the job, push
the fixed milestone progress updates, run the wrapped generation task
(modelled as an `Except` value: exception text or output path), and either
complete successfully or complete as failed with `str(e)` and re-raise. -/

def pipeline_generate (qm : QueueManager) (job_id : String) (task : Except String String)
    (now : Int) : QueueManager × Except String String :=
  let qm1 := (start_job qm job_id now).1
  let qm2 := update_job_progress qm1 job_id (1 / 10) "Initializing generation..."
  let qm3 := update_job_progress qm2 job_id (2 / 10) "Processing audio embeddings..."
  let qm4 := update_job_progress qm3 job_id (3 / 10) "Generating video frames..."
  match task with
  | Except.ok path =>
      let qm5 := update_job_progress qm4 job_id (8 / 10) "Saving video file..."
      let qm6 := update_job_progress qm5 job_id 1 "Video generation complete!"
      (complete_job qm6 job_id true none now, Except.ok path)
  | Except.error e =>
      (complete_job qm4 job_id false (some e) now, Except.error e)

/-! ## Operation traces

Job-lifecycle operations as driven by the demo pipeline: admission,
start, captured output lines (routed to `update_job_progress` with
`percentage / 100.0` by the callback installed in
`EnhancedProgressTracker.start_job_tracking`), and completion. -/

inductive QOp where
  | enqueue (job_type user_session job_id : String) (now : Int)
  | start (job_id : String) (now : Int)
  | procLine (job_id : String) (text : String)
  | complete (job_id : String) (success : Bool) (error_message : Option String) (now : Int)
deriving DecidableEq

/-- Effect of one captured stdout line on the queue manager: the
`_process_stdout` gate, then `update_queue_progress`'s
`update_job_progress(job_id, percentage / 100.0, description)`. -/
def process_captured_line (qm : QueueManager) (job_id : String) (text : String) :
    QueueManager :=
  if pyStrip text = "" then qm
  else if hasProgressIndicator (pyStrip text) then
    match parse_tqdm_line (pyStrip text) with
    | some pi => update_job_progress qm job_id (pi.percentage / 100) pi.description
    | none => qm
  else qm

/-- Transition function of one lifecycle operation. -/
def stepOp (qm : QueueManager) : QOp → QueueManager
  | QOp.enqueue job_type user_session job_id now => add_job qm job_type user_session job_id now
  | QOp.start job_id now => (start_job qm job_id now).1
  | QOp.procLine job_id text => process_captured_line qm job_id text
  | QOp.complete job_id success em now => complete_job qm job_id success em now

/-- Run a trace from a freshly constructed manager. -/
def run_ops (ops : List QOp) : QueueManager :=
  ops.foldl stepOp QueueManager.init

/-- Bounded-percentage side condition on a trace: every captured line that
parses as a progress update reports at most `100%`. -/
def pctOkB : QOp → Bool
  | QOp.procLine _ text =>
      (match parse_tqdm_line (pyStrip text) with
       | some pi => decide (pi.percentage ≤ 100)
       | none => true)
  | _ => true

/-! ## Spec-side definitions and fixtures -/

/-- Modelled from the spec's words (refinement target for the wait-time
claim, not from the source): "the first queued job's wait = remaining time
of the active job …; each subsequent queued job's wait = sum of all
predecessors' `estimatedDuration` plus the first job's computed wait.
Total estimated wait returned is the sum across all queued jobs computed
this way."  `first_wait` is the first job's computed wait and the list
holds the queued jobs' estimated durations in FIFO order. -/
def spec_total_wait (first_wait : ℚ) : List ℚ → ℚ
  | [] => 0
  | d :: rest => first_wait + spec_total_wait (first_wait + d) rest

/-- Every live job record's progress lies in `[0, 1]`. -/
def jobsOk (m : List (String × JobInfo)) : Prop :=
  ∀ p ∈ m, 0 ≤ p.2.progress ∧ p.2.progress ≤ 1

/-- Fold a sequence of (timestamp, line) insertions into a fresh
`LogCapture(max_lines=100)` buffer. -/
def log_fold (entries : List (String × String)) : List String :=
  entries.foldl (fun buf e => add_log_line 100 buf e.1 e.2) []

/- Fixtures: concrete states used by counterexamples and witnesses. -/

def jobA : JobInfo :=
  { job_id := "a", user_session := "s", job_type := "single", status := "processing",
    created_at := 0, started_at := some 0, progress := 1 / 2,
    estimated_duration := some 120 }

def jobB : JobInfo :=
  { job_id := "b", user_session := "s", job_type := "single", status := "queued",
    created_at := 0, estimated_duration := some 10 }

def jobC : JobInfo :=
  { job_id := "c", user_session := "s", job_type := "multi", status := "queued",
    created_at := 0, estimated_duration := some 20 }

/-- Active job `a` (half done after 100 s), queued jobs `b` (10 s) and
`c` (20 s). -/
def qmC1 : QueueManager :=
  { jobs := [("a", jobA), ("b", jobB), ("c", jobC)], queue_order := ["b", "c"],
    active_job := some "a" }

/-- A trace whose captured line reports more than 100 %. -/
def opsBad : List QOp :=
  [QOp.enqueue "single" "s" "j" 0, QOp.start "j" 1, QOp.procLine "j" "150% done"]

/-- A well-behaved trace with a genuine tqdm line. -/
def opsGood : List QOp :=
  [QOp.enqueue "single" "s" "j" 0, QOp.start "j" 1,
   QOp.procLine "j" "45%|███ | 12/30 [00:12<00:18, 2.50it/s]"]

def jobC3 : JobInfo :=
  { job_id := "x", user_session := "s", job_type := "multi", status := "queued",
    created_at := 0, estimated_duration := some 180 }

def qmC3 : QueueManager := { jobs := [("x", jobC3)], queue_order := ["x"] }

def jobC4 : JobInfo :=
  { job_id := "y", user_session := "s", job_type := "single", status := "processing",
    created_at := 0, started_at := some 3, progress := 2 / 5,
    estimated_duration := some 120 }

def qmC4 : QueueManager := { jobs := [("y", jobC4)], active_job := some "y" }

def jobC7 : JobInfo :=
  { job_id := "j", user_session := "s", job_type := "single", status := "queued",
    created_at := 0, estimated_duration := some 120 }

def qmC7 : QueueManager := { jobs := [("j", jobC7)], queue_order := ["j"] }

def jobC8 : JobInfo :=
  { job_id := "j", user_session := "s", job_type := "single", status := "processing",
    created_at := 0, started_at := some 0, progress := 1 / 2,
    estimated_duration := some 120 }

/-- A fresh manager (default 120 s seed for "single") processing one
"single" job started at t = 0. -/
def qmC8 : QueueManager := { jobs := [("j", jobC8)], active_job := some "j" }

/-- 101 timestamped insertions into a capacity-100 buffer. -/
def entriesC9 : List (String × String) := List.replicate 101 ("00:00:00", "line")

/-- Admit `a`, admit `b`, then complete `a` without ever starting it. -/
def qmC10 : QueueManager :=
  complete_job (add_job (add_job QueueManager.init "single" "s" "a" 0) "single" "s" "b" 0)
    "a" true none 5

/-! ## Helper lemmas -/

theorem lookupA_insertA_self {β : Type} (m : List (String × β)) (k : String) (v : β) :
    lookupA (insertA m k v) k = some v := by
  induction m with
  | nil => simp [insertA, lookupA]
  | cons p t ih =>
      obtain ⟨k0, v0⟩ := p
      by_cases hk : k0 = k
      · simp [insertA, lookupA, hk]
      · simp [insertA, lookupA, hk, ih]

theorem mem_insertA {β : Type} {m : List (String × β)} {k : String} {v : β}
    {p : String × β} (hp : p ∈ insertA m k v) : p ∈ m ∨ p = (k, v) := by
  induction m with
  | nil =>
      right
      simpa [insertA] using hp
  | cons q t ih =>
      obtain ⟨k0, v0⟩ := q
      by_cases hk : k0 = k
      · rw [insertA, if_pos hk] at hp
        rcases List.mem_cons.mp hp with h1 | h1
        · right
          rw [h1, hk]
        · left
          exact List.mem_cons_of_mem _ h1
      · rw [insertA, if_neg hk] at hp
        rcases List.mem_cons.mp hp with h1 | h1
        · left
          rw [h1]
          exact List.mem_cons_self _ _
        · rcases ih h1 with h2 | h2
          · left
            exact List.mem_cons_of_mem _ h2
          · right
            exact h2

theorem mem_eraseA {β : Type} {m : List (String × β)} {k : String}
    {p : String × β} (hp : p ∈ eraseA m k) : p ∈ m := by
  induction m with
  | nil => simp [eraseA] at hp
  | cons q t ih =>
      obtain ⟨k0, v0⟩ := q
      by_cases hk : k0 = k
      · rw [eraseA, if_pos hk] at hp
        exact List.mem_cons_of_mem _ hp
      · rw [eraseA, if_neg hk] at hp
        rcases List.mem_cons.mp hp with h1 | h1
        · rw [h1]
          exact List.mem_cons_self _ _
        · exact List.mem_cons_of_mem _ (ih h1)

theorem lookupA_mem {β : Type} {m : List (String × β)} {k : String} {v : β}
    (h : lookupA m k = some v) : (k, v) ∈ m := by
  induction m with
  | nil => simp [lookupA] at h
  | cons q t ih =>
      obtain ⟨k0, v0⟩ := q
      by_cases hk : k0 = k
      · rw [lookupA, if_pos hk] at h
        cases h
        rw [← hk]
        exact List.mem_cons_self _ _
      · rw [lookupA, if_neg hk] at h
        exact List.mem_cons_of_mem _ (ih h)

theorem push_history_getLast (h : List JobInfo) (j : JobInfo) :
    (push_history h j).getLast? = some j := by
  show (if 100 < (h ++ [j]).length then (h ++ [j]).drop 1 else (h ++ [j])).getLast? = some j
  split
  · cases h with
    | nil => simp at *
    | cons a t =>
        rw [List.cons_append, List.drop_one, List.tail_cons]
        exact List.getLast?_concat t
  · exact List.getLast?_concat h

theorem wait_loop_succ (active : Option JobInfo) (now : Int) (i : Nat)
    (l : List JobInfo) :
    wait_loop active now (i + 1) l = (l.map est_duration_or_default).sum := by
  induction l generalizing i with
  | nil => simp [wait_loop]
  | cons j t ih => simp [wait_loop, ih]

theorem parse_percentage_nonneg {line : String} {pi : ProgressInfo}
    (h : parse_tqdm_line line = some pi) : 0 ≤ pi.percentage := by
  unfold parse_tqdm_line at h
  dsimp only at h
  split at h
  · exact absurd h (by simp)
  · split at h
    · injection h with h2
      subst h2
      exact Nat.cast_nonneg _
    · split at h
      · injection h with h2
        subst h2
        exact Nat.cast_nonneg _
      · exact absurd h (by simp)

theorem start_job_eq {qm : QueueManager} {job_id : String} {j : JobInfo} (now : Int)
    (h : lookupA qm.jobs job_id = some j) :
    (start_job qm job_id now).1 =
      { qm with jobs := insertA qm.jobs job_id { j with status := "processing", started_at := some now },
                active_job := some job_id,
                queue_order := removeFirst qm.queue_order job_id } := by
  unfold start_job
  rw [h]

theorem start_job_eq_none {qm : QueueManager} {job_id : String} (now : Int)
    (h : lookupA qm.jobs job_id = none) : (start_job qm job_id now).1 = qm := by
  unfold start_job
  rw [h]

theorem update_job_progress_eq {qm : QueueManager} {job_id : String} {j : JobInfo}
    (p : ℚ) (s : String) (h : lookupA qm.jobs job_id = some j) :
    update_job_progress qm job_id p s =
      { qm with jobs := insertA qm.jobs job_id { j with progress := p, current_step := s } } := by
  unfold update_job_progress
  rw [h]

theorem update_job_progress_eq_none {qm : QueueManager} {job_id : String}
    (p : ℚ) (s : String) (h : lookupA qm.jobs job_id = none) :
    update_job_progress qm job_id p s = qm := by
  unfold update_job_progress
  rw [h]

theorem complete_job_eq {qm : QueueManager} {job_id : String} {j : JobInfo}
    (success : Bool) (em : Option String) (now : Int)
    (h : lookupA qm.jobs job_id = some j) :
    complete_job qm job_id success em now =
      { qm with jobs := eraseA qm.jobs job_id,
                job_history := push_history qm.job_history (retire_record j success em now),
                active_job := if qm.active_job = some job_id then none else qm.active_job,
                avg_processing_times := completed_avgs qm.avg_processing_times j success now } := by
  unfold complete_job
  rw [h]

theorem complete_job_eq_none {qm : QueueManager} {job_id : String}
    (success : Bool) (em : Option String) (now : Int)
    (h : lookupA qm.jobs job_id = none) :
    complete_job qm job_id success em now = qm := by
  unfold complete_job
  rw [h]

theorem complete_job_getLast {qm : QueueManager} {job_id : String} {j : JobInfo}
    (success : Bool) (em : Option String) (now : Int)
    (h : lookupA qm.jobs job_id = some j) :
    (complete_job qm job_id success em now).job_history.getLast? =
      some (retire_record j success em now) := by
  rw [complete_job_eq success em now h]
  exact push_history_getLast _ _

theorem complete_job_queue_order (qm : QueueManager) (job_id : String) (success : Bool)
    (em : Option String) (now : Int) :
    (complete_job qm job_id success em now).queue_order = qm.queue_order := by
  cases h : lookupA qm.jobs job_id with
  | none => rw [complete_job_eq_none success em now h]
  | some j => rw [complete_job_eq success em now h]

/-! Log-buffer lemmas -/

theorem add_log_line_length_le {n : Nat} {buf : List String} (h : buf.length ≤ n)
    (ts line : String) : (add_log_line n buf ts line).length ≤ n := by
  show (if n < (buf ++ [fmtLogLine ts line]).length then (buf ++ [fmtLogLine ts line]).drop 1 else buf ++ [fmtLogLine ts line]).length ≤ n
  split
  · simp only [List.length_drop, List.length_append, List.length_cons, List.length_nil]
    omega
  · next hn =>
      simp only [not_lt] at hn
      exact hn

theorem log_foldl_length_le (n : Nat) (entries : List (String × String)) :
    ∀ buf : List String, buf.length ≤ n →
      (entries.foldl (fun b e => add_log_line n b e.1 e.2) buf).length ≤ n := by
  induction entries with
  | nil =>
      intro buf hb
      simpa using hb
  | cons e t ih =>
      intro buf hb
      exact ih _ (add_log_line_length_le hb _ _)

theorem add_log_line_no_drop {n : Nat} {buf : List String} (ts line : String)
    (h : buf.length + 1 ≤ n) :
    add_log_line n buf ts line = buf ++ [fmtLogLine ts line] := by
  show (if n < (buf ++ [fmtLogLine ts line]).length then (buf ++ [fmtLogLine ts line]).drop 1 else buf ++ [fmtLogLine ts line]) = buf ++ [fmtLogLine ts line]
  rw [if_neg]
  simp only [not_lt, List.length_append, List.length_cons, List.length_nil]
  omega

theorem log_foldl_no_drop (n : Nat) (entries : List (String × String)) :
    ∀ buf : List String, buf.length + entries.length ≤ n →
      entries.foldl (fun b e => add_log_line n b e.1 e.2) buf =
        buf ++ entries.map (fun e => fmtLogLine e.1 e.2) := by
  induction entries with
  | nil =>
      intro buf hb
      simp
  | cons e t ih =>
      intro buf hb
      have hb1 : buf.length + 1 ≤ n := by
        simp only [List.length_cons] at hb
        omega
      have hstep : add_log_line n buf e.1 e.2 = buf ++ [fmtLogLine e.1 e.2] :=
        add_log_line_no_drop e.1 e.2 hb1
      rw [List.foldl_cons, hstep, ih]
      · simp
      · simp only [List.length_append, List.length_cons, List.length_nil] at *
        omega

/-! Progress-range invariant machinery -/

theorem jobsOk_insertA {m : List (String × JobInfo)} {k : String} {v : JobInfo}
    (hm : jobsOk m) (hv : 0 ≤ v.progress ∧ v.progress ≤ 1) : jobsOk (insertA m k v) := by
  intro p hp
  rcases mem_insertA hp with h1 | h1
  · exact hm p h1
  · rw [h1]
    exact hv

theorem jobsOk_eraseA {m : List (String × JobInfo)} {k : String} (hm : jobsOk m) :
    jobsOk (eraseA m k) :=
  fun p hp => hm p (mem_eraseA hp)

theorem jobsOk_add_job {qm : QueueManager} (hqm : jobsOk qm.jobs)
    (jt us id : String) (now : Int) : jobsOk (add_job qm jt us id now).jobs := by
  have h1 : (add_job qm jt us id now).jobs = insertA qm.jobs id (new_job qm jt us id now) := rfl
  have h2 : (new_job qm jt us id now).progress = 0 := rfl
  rw [h1]
  refine jobsOk_insertA hqm ?_
  rw [h2]
  norm_num

theorem jobsOk_start_job {qm : QueueManager} (hqm : jobsOk qm.jobs)
    (id : String) (now : Int) : jobsOk ((start_job qm id now).1).jobs := by
  cases h : lookupA qm.jobs id with
  | none =>
      rw [start_job_eq_none now h]
      exact hqm
  | some j =>
      rw [start_job_eq now h]
      exact jobsOk_insertA hqm (hqm (id, j) (lookupA_mem h))

theorem jobsOk_update_job_progress {qm : QueueManager} (hqm : jobsOk qm.jobs)
    {v : ℚ} (id s : String) (hv : 0 ≤ v ∧ v ≤ 1) :
    jobsOk (update_job_progress qm id v s).jobs := by
  cases h : lookupA qm.jobs id with
  | none =>
      rw [update_job_progress_eq_none v s h]
      exact hqm
  | some j =>
      rw [update_job_progress_eq v s h]
      exact jobsOk_insertA hqm hv

theorem jobsOk_complete_job {qm : QueueManager} (hqm : jobsOk qm.jobs)
    (id : String) (success : Bool) (em : Option String) (now : Int) :
    jobsOk (complete_job qm id success em now).jobs := by
  cases h : lookupA qm.jobs id with
  | none =>
      rw [complete_job_eq_none success em now h]
      exact hqm
  | some j =>
      rw [complete_job_eq success em now h]
      exact jobsOk_eraseA hqm

theorem jobsOk_process_captured_line {qm : QueueManager} (hqm : jobsOk qm.jobs)
    (id text : String) (hop : pctOkB (QOp.procLine id text) = true) :
    jobsOk (process_captured_line qm id text).jobs := by
  unfold process_captured_line
  split
  · exact hqm
  · split
    · split
      · next pi hpi =>
          have hle : pi.percentage ≤ 100 := by
            have hop2 : (match parse_tqdm_line (pyStrip text) with
                         | some q => decide (q.percentage ≤ 100)
                         | none => true) = true := hop
            rw [hpi] at hop2
            exact of_decide_eq_true hop2
          have hge : 0 ≤ pi.percentage := parse_percentage_nonneg hpi
          refine jobsOk_update_job_progress hqm id pi.description ⟨?_, ?_⟩
          · positivity
          · rw [div_le_one (by norm_num)]
            exact hle
      · exact hqm
    · exact hqm

theorem jobsOk_stepOp {qm : QueueManager} {op : QOp} (hqm : jobsOk qm.jobs)
    (hop : pctOkB op = true) : jobsOk (stepOp qm op).jobs := by
  cases op with
  | enqueue jt us id now => exact jobsOk_add_job hqm jt us id now
  | start id now => exact jobsOk_start_job hqm id now
  | procLine id text => exact jobsOk_process_captured_line hqm id text hop
  | complete id success em now => exact jobsOk_complete_job hqm id success em now

theorem jobsOk_foldl (ops : List QOp) :
    ∀ qm : QueueManager, jobsOk qm.jobs → (∀ op ∈ ops, pctOkB op = true) →
      jobsOk ((ops.foldl stepOp qm).jobs) := by
  induction ops with
  | nil =>
      intro qm hqm _
      exact hqm
  | cons op t ih =>
      intro qm hqm hops
      exact ih _ (jobsOk_stepOp hqm (hops op (List.mem_cons_self _ _)))
        (fun o ho => hops o (List.mem_cons_of_mem _ ho))

theorem pipeline_generate_snd (qm : QueueManager) (job_id : String)
    (task : Except String String) (now : Int) :
    (pipeline_generate qm job_id task now).2 = task := by
  cases task <;> rfl

theorem pipeline_generate_error_hist {qm : QueueManager} {job_id : String} {j : JobInfo}
    (e : String) (now : Int) (h : lookupA qm.jobs job_id = some j) :
    (pipeline_generate qm job_id (Except.error e) now).1.job_history.getLast? =
      some (retire_record { j with status := "processing", started_at := some now, progress := 3 / 10, current_step := "Generating video frames..." } false (some e) now) := by
  show (complete_job (update_job_progress (update_job_progress (update_job_progress (start_job qm job_id now).1 job_id (1 / 10) "Initializing generation...") job_id (2 / 10) "Processing audio embeddings...") job_id (3 / 10) "Generating video frames...") job_id false (some e) now).job_history.getLast? = some (retire_record { j with status := "processing", started_at := some now, progress := 3 / 10, current_step := "Generating video frames..." } false (some e) now)
  rw [start_job_eq now h]
  rw [update_job_progress_eq (1 / 10) "Initializing generation..." (lookupA_insertA_self _ _ _)]
  rw [update_job_progress_eq (2 / 10) "Processing audio embeddings..." (lookupA_insertA_self _ _ _)]
  rw [update_job_progress_eq (3 / 10) "Generating video frames..." (lookupA_insertA_self _ _ _)]
  rw [complete_job_getLast false (some e) now (lookupA_insertA_self _ _ _)]

/-! ## Claim theorems -/

/-- C1 (counterexample): on a state with an active job (remaining time
100 s) and two queued jobs (10 s and 20 s), `get_queue_status` returns
120 (remaining + each subsequent job's own duration), while the claimed
formula (each subsequent job waits for all predecessors plus the first
wait, summed) gives 210 — the two disagree. -/
theorem c1_estimated_wait_counterexample :
    active_job_info qmC1 = some jobA ∧
    (get_queue_status qmC1 100).estimated_wait_time = 120 ∧
    spec_total_wait (_estimate_remaining_time jobA 100)
        ((live_queue_jobs qmC1).map est_duration_or_default) = 210 ∧
    (get_queue_status qmC1 100).estimated_wait_time ≠
      spec_total_wait (_estimate_remaining_time jobA 100)
        ((live_queue_jobs qmC1).map est_duration_or_default) := by
  with_unfolding_all decide

/-- C1 (amended): with at least one queued job, the estimated total wait
equals the first queued job's contribution (the active job's remaining
time when an active job exists, else the first job's own
`estimated_duration or 150`) plus the sum of the remaining queued jobs'
own `estimated_duration or 150` — each subsequent job contributes only
its own duration, not cumulative predecessor sums. -/
theorem c1_estimated_wait_characterization (qm : QueueManager) (now : Int)
    (j : JobInfo) (rest : List JobInfo) (h : live_queue_jobs qm = j :: rest) :
    (get_queue_status qm now).estimated_wait_time =
      (match active_job_info qm with
       | some a => _estimate_remaining_time a now
       | none => est_duration_or_default j) +
      (rest.map est_duration_or_default).sum := by
  have h1 : (get_queue_status qm now).estimated_wait_time =
      wait_loop (active_job_info qm) now 0 (live_queue_jobs qm) := rfl
  rw [h1, h]
  cases active_job_info qm with
  | none =>
      show est_duration_or_default j + wait_loop none now (0 + 1) rest =
        est_duration_or_default j + (rest.map est_duration_or_default).sum
      rw [wait_loop_succ]
  | some a =>
      show _estimate_remaining_time a now + wait_loop (some a) now (0 + 1) rest =
        _estimate_remaining_time a now + (rest.map est_duration_or_default).sum
      rw [wait_loop_succ]

/-- C1 (witness): the characterization applied to the concrete state
`qmC1` with queued jobs `b` and `c`. -/
theorem c1_estimated_wait_witness :
    live_queue_jobs qmC1 = jobB :: [jobC] ∧
    (get_queue_status qmC1 100).estimated_wait_time =
      (match active_job_info qmC1 with
       | some a => _estimate_remaining_time a 100
       | none => est_duration_or_default jobB) +
      ([jobC].map est_duration_or_default).sum :=
  ⟨by with_unfolding_all decide, c1_estimated_wait_characterization qmC1 100 jobB [jobC] (by with_unfolding_all decide)⟩

/-- C2 (counterexample): the captured line "150% done" parses with
percentage 150 and drives the job's progress to 3/2, outside [0, 1]. -/
theorem c2_progress_range_counterexample :
    (lookupA (run_ops opsBad).jobs "j").map JobInfo.progress = some (3 / 2) ∧
    (∃ p ∈ (run_ops opsBad).jobs, ¬ (0 ≤ p.2.progress ∧ p.2.progress ≤ 1)) := by
  with_unfolding_all decide

/-- C2 (amended): over any trace of admissions, starts, captured output
lines and completions, every live record's progress stays in [0, 1]
provided every captured line that parses as a progress update reports at
most 100 % (the code never clamps, so an over-100 % line breaks the
bound); progress is 0 at creation and the record retired by a successful
completion has progress 1. -/
theorem c2_progress_range :
    (∀ ops : List QOp, (∀ op ∈ ops, pctOkB op = true) →
       ∀ p ∈ (run_ops ops).jobs, 0 ≤ p.2.progress ∧ p.2.progress ≤ 1) ∧
    (∀ (qm : QueueManager) (jt us id : String) (now : Int),
       (lookupA (add_job qm jt us id now).jobs id).map JobInfo.progress = some 0) ∧
    (∀ (qm : QueueManager) (id : String) (j : JobInfo) (em : Option String) (now : Int),
       lookupA qm.jobs id = some j →
       ((complete_job qm id true em now).job_history.getLast?).map JobInfo.progress =
         some 1) := by
  refine ⟨?_, ?_, ?_⟩
  · intro ops hops
    refine jobsOk_foldl ops QueueManager.init ?_ hops
    intro p hp
    exact absurd hp (List.not_mem_nil p)
  · intro qm jt us id now
    have h1 : (add_job qm jt us id now).jobs = insertA qm.jobs id (new_job qm jt us id now) :=
      rfl
    rw [h1, lookupA_insertA_self]
    rfl
  · intro qm id j em now h
    rw [complete_job_getLast true em now h]
    rfl

/-- C2 (witness): the invariant applied to a concrete trace whose tqdm
line reports 45 %, plus a concrete successful completion. -/
theorem c2_progress_range_witness :
    (∀ op ∈ opsGood, pctOkB op = true) ∧
    (∀ p ∈ (run_ops opsGood).jobs, 0 ≤ p.2.progress ∧ p.2.progress ≤ 1) ∧
    lookupA qmC4.jobs "y" = some jobC4 ∧
    ((complete_job qmC4 "y" true none 11).job_history.getLast?).map JobInfo.progress =
      some 1 :=
  ⟨by with_unfolding_all decide, c2_progress_range.1 opsGood (by with_unfolding_all decide), by with_unfolding_all decide,
   c2_progress_range.2.2 qmC4 "y" jobC4 none 11 (by with_unfolding_all decide)⟩

/-- C3 (counterexample): `complete_job` with `success=true` and a
non-empty error message produces a history record with status "completed"
that carries that error message — the code records the message regardless
of success. -/
theorem c3_error_message_counterexample :
    ∃ r ∈ (complete_job qmC3 "x" true (some "boom") 50).job_history,
      r.status = "completed" ∧ r.error_message = some "boom" := by
  with_unfolding_all decide

/-- C3 (amended): the retired record's `error_message` equals the passed
argument exactly when that argument is truthy (non-`None`, non-empty),
independent of success; otherwise it keeps the live record's value — in
particular a `success=true` completion that passes no error message (the
repository's success path) retires a record with `error_message = none`. -/
theorem c3_error_message_semantics :
    (∀ (qm : QueueManager) (id : String) (j : JobInfo) (succ : Bool) (em : Option String)
       (now : Int), lookupA qm.jobs id = some j →
       ((complete_job qm id succ em now).job_history.getLast?).map JobInfo.error_message =
         some (if truthyMsg em then em else j.error_message)) ∧
    (∀ (qm : QueueManager) (id : String) (j : JobInfo) (now : Int),
       lookupA qm.jobs id = some j → j.error_message = none →
       ((complete_job qm id true none now).job_history.getLast?).map JobInfo.error_message =
         some none) := by
  constructor
  · intro qm id j succ em now h
    rw [complete_job_getLast succ em now h]
    rfl
  · intro qm id j now h hj
    rw [complete_job_getLast true none now h]
    show some j.error_message = some none
    rw [hj]

/-- C3 (witness): the semantics applied at a concrete state, for a failed
completion with a message and a successful completion without one. -/
theorem c3_error_message_witness :
    lookupA qmC3.jobs "x" = some jobC3 ∧ jobC3.error_message = none ∧
    ((complete_job qmC3 "x" false (some "err") 7).job_history.getLast?).map
        JobInfo.error_message =
      some (if truthyMsg (some "err") then some "err" else jobC3.error_message) ∧
    ((complete_job qmC3 "x" true none 7).job_history.getLast?).map JobInfo.error_message =
      some none :=
  ⟨by with_unfolding_all decide, by with_unfolding_all decide,
   c3_error_message_semantics.1 qmC3 "x" jobC3 false (some "err") 7 (by with_unfolding_all decide),
   c3_error_message_semantics.2 qmC3 "x" jobC3 7 (by with_unfolding_all decide) (by with_unfolding_all decide)⟩

/-- C4: for a live job, `complete_job` with `success=true` retires the
record with progress exactly 1, and with `success=false` retires it with
the progress it had before the call. -/
theorem c4_complete_progress (qm : QueueManager) (id : String) (j : JobInfo)
    (em : Option String) (now : Int) (h : lookupA qm.jobs id = some j) :
    ((complete_job qm id true em now).job_history.getLast?).map JobInfo.progress =
      some 1 ∧
    ((complete_job qm id false em now).job_history.getLast?).map JobInfo.progress =
      some j.progress := by
  constructor
  · rw [complete_job_getLast true em now h]
    rfl
  · rw [complete_job_getLast false em now h]
    rfl

/-- C4 (witness): applied to a concrete job with progress 2/5. -/
theorem c4_complete_progress_witness :
    lookupA qmC4.jobs "y" = some jobC4 ∧
    ((complete_job qmC4 "y" true none 9).job_history.getLast?).map JobInfo.progress =
      some 1 ∧
    ((complete_job qmC4 "y" false none 9).job_history.getLast?).map JobInfo.progress =
      some jobC4.progress :=
  ⟨by with_unfolding_all decide, (c4_complete_progress qmC4 "y" jobC4 none 9 (by with_unfolding_all decide)).1,
   (c4_complete_progress qmC4 "y" jobC4 none 9 (by with_unfolding_all decide)).2⟩

/-- C5 (counterexample): the non-empty line "starting step" contains the
indicator "step", fails both progress patterns, and is silently dropped:
the capture state is unchanged, so it reaches neither a progress update
nor the log buffer. -/
theorem c5_line_routing_counterexample :
    pyStrip "starting step" ≠ "" ∧
    process_stdout_line {} "00:00:01" "starting step" = ({} : CaptureState) ∧
    (process_stdout_line {} "00:00:01" "starting step").log_lines = [] := by
  with_unfolding_all decide

/-- C5 (amended): empty lines are discarded; a non-empty line without any
progress indicator is appended to the log buffer; a non-empty line with
an indicator that parses becomes the current progress update (and is
appended to the captured-output history); a non-empty line with an
indicator that fails to parse is silently dropped, reaching neither the
progress state nor the log buffer. -/
theorem c5_line_routing (st : CaptureState) (ts text : String) :
    (pyStrip text = "" → process_stdout_line st ts text = st) ∧
    (pyStrip text ≠ "" → hasProgressIndicator (pyStrip text) = false →
       process_stdout_line st ts text =
         { st with log_lines := add_log_line 100 st.log_lines ts (pyStrip text) }) ∧
    (∀ pi, pyStrip text ≠ "" → hasProgressIndicator (pyStrip text) = true →
       parse_tqdm_line (pyStrip text) = some pi →
       process_stdout_line st ts text =
         { st with current_progress := pi,
                   captured_output := st.captured_output ++ [fmtLogLine ts (pyStrip text)] }) ∧
    (pyStrip text ≠ "" → hasProgressIndicator (pyStrip text) = true →
       parse_tqdm_line (pyStrip text) = none →
       process_stdout_line st ts text = st) := by
  refine ⟨?_, ?_, ?_, ?_⟩
  · intro h0
    unfold process_stdout_line
    rw [if_pos h0]
  · intro h0 h1
    unfold process_stdout_line
    rw [if_neg h0, if_neg (by simp [h1])]
  · intro pi h0 h1 hp
    unfold process_stdout_line
    rw [if_neg h0, if_pos h1, hp]
  · intro h0 h1 hp
    unfold process_stdout_line
    rw [if_neg h0, if_pos h1, hp]

/-- C5 (witness): the routing applied to a concrete plain log line. -/
theorem c5_line_routing_witness :
    pyStrip "Loading model weights" ≠ "" ∧
    hasProgressIndicator (pyStrip "Loading model weights") = false ∧
    process_stdout_line {} "00:00:02" "Loading model weights" =
      { ({} : CaptureState) with
          log_lines := add_log_line 100 ({} : CaptureState).log_lines "00:00:02"
            (pyStrip "Loading model weights") } :=
  ⟨by with_unfolding_all decide, by with_unfolding_all decide,
   (c5_line_routing {} "00:00:02" "Loading model weights").2.1 (by with_unfolding_all decide) (by with_unfolding_all decide)⟩

/-- C6: parsing the exact line `45%|███ | 12/30 [00:12<00:18, 2.50it/s]`
yields percentage 45, current step 12, total steps 30 and elapsed time
12 s (the string "00:12" read as MM:SS); the eta string is captured and
the rate group, though matched, is not stored. -/
theorem c6_parse_rich_line :
    parse_tqdm_line "45%|███ | 12/30 [00:12<00:18, 2.50it/s]" =
      some { percentage := 45, current_step := 12, total_steps := 30, rate := none,
             eta := some "00:18",
             description := "45%|███ | 12/30 [00:12<00:18, 2.50it/s]",
             elapsed_time := 12 } := by
  have h0 : pyStrip "45%|███ | 12/30 [00:12<00:18, 2.50it/s]" =
      "45%|███ | 12/30 [00:12<00:18, 2.50it/s]" := by decide
  have h1 : tqdmSearch "45%|███ | 12/30 [00:12<00:18, 2.50it/s]".toList =
      some { pct := 45, cur := 12, tot := 30, elapsed := "00:12", eta := "00:18",
             rate := "2.50it/s" } := by decide
  have h2 : _parse_time "00:12" = 12 := by with_unfolding_all decide
  unfold parse_tqdm_line
  dsimp only
  rw [h0, if_neg (by decide : ¬("45%|███ | 12/30 [00:12<00:18, 2.50it/s]" : String) = ""),
    h1]
  dsimp only
  rw [h2]
  norm_num

/-- C7 (counterexample): a generation failure whose exception text is the
empty string retires the job as "failed" but records no error message
(`if error_message:` treats "" as falsy), so the exception's text is not
recorded. -/
theorem c7_generation_failure_counterexample :
    ((pipeline_generate qmC7 "j" (Except.error "") 10).1.job_history.map
        (fun r => (r.status, r.error_message))) = [("failed", none)] ∧
    ((pipeline_generate qmC7 "j" (Except.error "") 10).1.job_history.map
        (fun r => r.error_message)) ≠ [some ""] := by
  with_unfolding_all decide

/-- C7 (amended): the job-execution path's outcome always mirrors the
wrapped task's outcome (so a task error is re-raised unchanged and is the
only error that propagates), and a task error retires the job as "failed"
with the exception's text recorded as `error_message` exactly when that
text is non-empty (empty text leaves the prior value, `none` for records
created by `add_job`). -/
theorem c7_generation_failure :
    (∀ (qm : QueueManager) (id : String) (task : Except String String) (now : Int),
       (pipeline_generate qm id task now).2 = task) ∧
    (∀ (qm : QueueManager) (id : String) (j : JobInfo) (e : String) (now : Int),
       lookupA qm.jobs id = some j →
       ∃ r, (pipeline_generate qm id (Except.error e) now).1.job_history.getLast? =
           some r ∧
         r.status = "failed" ∧
         r.error_message = (if e != "" then some e else j.error_message)) := by
  constructor
  · intro qm id task now
    exact pipeline_generate_snd qm id task now
  · intro qm id j e now h
    exact ⟨_, pipeline_generate_error_hist e now h, rfl, rfl⟩

/-- C7 (witness): a concrete failing generation with text "boom". -/
theorem c7_generation_failure_witness :
    lookupA qmC7.jobs "j" = some jobC7 ∧
    (∃ r, (pipeline_generate qmC7 "j" (Except.error "boom") 10).1.job_history.getLast? =
        some r ∧
      r.status = "failed" ∧
      r.error_message = (if "boom" != "" then some "boom" else jobC7.error_message)) :=
  ⟨by with_unfolding_all decide, c7_generation_failure.2 qmC7 "j" jobC7 "boom" 10 (by with_unfolding_all decide)⟩

/-- C8: completing one "single" job of 100 s observed duration from the
default 120 s seed updates the running average to exactly
0.7·120 + 0.3·100 = 114; the update touches only kinds already in the
table and never happens on a failed completion. -/
theorem c8_running_average :
    (lookupA (complete_job qmC8 "j" true none 100).avg_processing_times "single" =
       some 114) ∧
    ((114 : ℚ) = 7 / 10 * 120 + 3 / 10 * 100) ∧
    (∀ (tbl : List (String × ℚ)) (k : String) (d : ℚ),
       lookupA tbl k = none → _update_avg_processing_time tbl k d = tbl) ∧
    (∀ (qm : QueueManager) (id : String) (em : Option String) (now : Int),
       (complete_job qm id false em now).avg_processing_times =
         qm.avg_processing_times) := by
  refine ⟨by with_unfolding_all decide, by norm_num, ?_, ?_⟩
  · intro tbl k d h
    unfold _update_avg_processing_time
    rw [h]
  · intro qm id em now
    cases h : lookupA qm.jobs id with
    | none => rw [complete_job_eq_none false em now h]
    | some j =>
        rw [complete_job_eq false em now h]
        rfl

/-- C8 (witness): the unknown-kind clause applied to the seeded table. -/
theorem c8_running_average_witness :
    lookupA QueueManager.init.avg_processing_times "unknown" = none ∧
    _update_avg_processing_time QueueManager.init.avg_processing_times "unknown" 50 =
      QueueManager.init.avg_processing_times :=
  ⟨by with_unfolding_all decide, c8_running_average.2.2.1 _ "unknown" 50 (by with_unfolding_all decide)⟩

/-- C9: the log buffer never exceeds its capacity of 100 lines, and after
exactly 101 insertions into a fresh buffer the result is the 101
timestamped lines with the oldest dropped — FIFO eviction in insertion
order. -/
theorem c9_log_buffer_bound :
    (∀ entries : List (String × String), (log_fold entries).length ≤ 100) ∧
    (∀ entries : List (String × String), entries.length = 101 →
       log_fold entries = (entries.map (fun e => fmtLogLine e.1 e.2)).drop 1) := by
  constructor
  · intro entries
    exact log_foldl_length_le 100 entries [] (by simp)
  · intro entries hlen
    rcases List.eq_nil_or_concat entries with h | ⟨es, e, rfl⟩
    · rw [h] at hlen
      simp at hlen
    · have hes : es.length = 100 := by
        rw [List.concat_eq_append, List.length_append] at hlen
        simp at hlen
        omega
      unfold log_fold
      rw [List.concat_eq_append, List.foldl_append,
        log_foldl_no_drop 100 es [] (by simp [hes]), List.nil_append]
      show add_log_line 100 (es.map (fun e => fmtLogLine e.1 e.2)) e.1 e.2 =
        ((es ++ [e]).map (fun e => fmtLogLine e.1 e.2)).drop 1
      rw [List.map_append]
      show (if 100 < ((es.map (fun e => fmtLogLine e.1 e.2)) ++ [fmtLogLine e.1 e.2]).length then ((es.map (fun e => fmtLogLine e.1 e.2)) ++ [fmtLogLine e.1 e.2]).drop 1 else (es.map (fun e => fmtLogLine e.1 e.2)) ++ [fmtLogLine e.1 e.2]) = ((es.map (fun e => fmtLogLine e.1 e.2)) ++ [e].map (fun e => fmtLogLine e.1 e.2)).drop 1
      rw [if_pos]
      · rfl
      · simp [hes]

/-- C9 (witness): the FIFO-eviction clause applied to 101 concrete
insertions. -/
theorem c9_log_buffer_witness :
    entriesC9.length = 101 ∧
    log_fold entriesC9 = (entriesC9.map (fun e => fmtLogLine e.1 e.2)).drop 1 :=
  ⟨by with_unfolding_all decide, c9_log_buffer_bound.2 entriesC9 (by with_unfolding_all decide)⟩

/-- C10: completing a job that was never started leaves its id in
`queue_order` (`complete_job` never touches the queue order), so
`get_job_position` still reports position 1 for the retired job and the
dangling entry shifts job `b` to position 2, while `get_queue_status`'s
queued view and queue length exclude the retired id. -/
theorem c10_completed_unstarted_job_position :
    (∀ (qm : QueueManager) (id : String) (success : Bool) (em : Option String) (now : Int),
       (complete_job qm id success em now).queue_order = qm.queue_order) ∧
    "a" ∈ qmC10.queue_order ∧
    lookupA qmC10.jobs "a" = none ∧
    get_job_position qmC10 "a" = some 1 ∧
    get_job_position qmC10 "b" = some 2 ∧
    (get_queue_status qmC10 0).queue_length = 1 ∧
    ((get_queue_status qmC10 0).queue_jobs.map JobInfo.job_id) = ["b"] := by
  refine ⟨complete_job_queue_order, ?_, ?_, ?_, ?_, ?_, ?_⟩ <;> with_unfolding_all decide

end MultiTalk
